import Mathlib

/-!
Shallow embedding of the event-driven connection manager and frame decoder
in src/src/net.c: the receive path of peer_cb (read, buffer append, frame
decode via read_packet), the EV_WRITE drain of the outbound envelope queue,
and the client-list lookup.  Definitions are transcribed from the C source;
the few items that live in headers or files outside src/ (frame-type and
errno constants, the handle_connect handler, the varint encoder) are
modelled from the spec and marked as such in their doc comments.

Modelling conventions: bytes read from the wire are Nat values 0..255 (the
unsigned reading of the C char buffer); C int values are modelled as Int —
no theorem below drives any int anywhere near the 2^31 overflow boundary.
The receive buffer is kept as the list of its valid bytes, so the C pair
(inbuf, inbuf_bytes) becomes one list with inbuf_bytes = inbuf.length.
-/

set_option maxRecDepth 4000

namespace PubSub

/-- Modelled from the spec: the frame type reserved for connection
establishment (mqtt.h is not under src/; the spec scenario uses the type
byte 0x10 for the establish frame). -/
def T_CONNECT : Nat := 0x10

/-- Modelled from the spec: the keep-alive probe frame type (mqtt.h is not
under src/; standard wire value for the ping request). -/
def T_PINGREQ : Nat := 0xC0

/-- The receive buffer capacity; net.c refers to the 4096-byte buffer. -/
def BUF_LEN : Nat := 4096

/-- libev read-readiness flag (ev.h). -/
def EV_READ : Nat := 0x01

/-- libev write-readiness flag (ev.h). -/
def EV_WRITE : Nat := 0x02

/-- Linux errno value for EAGAIN. -/
def EAGAIN : Int := 11

/-- Linux errno value for EWOULDBLOCK (same value as EAGAIN). -/
def EWOULDBLOCK : Int := 11

/-- Linux errno value for EINTR. -/
def EINTR : Int := 4

/-- Linux errno value for EIO. -/
def EIO : Int := 5

/-- Handshake states.  src/ shows only S_CONNECTING (net.c:67,209); the
remaining states are modelled from the spec §4.3: S_CONNECTED is the
spec's Established, S_CLOSING the spec's Closing. -/
inductive ClientState
  | S_CONNECTING
  | S_CONNECTED
  | S_CLOSING
deriving DecidableEq

/-- The fields of struct Client used by the receive path (net.c:64-69):
socket fd, handshake state, and the receive buffer.  The C pair of a fixed
array plus the inbuf_bytes count is kept as the list of valid bytes. -/
structure Client where
  fd : Int
  state : ClientState
  inbuf : List Nat
deriving DecidableEq

/-- One pending outbound message (struct Envelope, declared in data.h which
is outside src/; the fields below are exactly the ones net.c:137-165 uses:
msg, bytes_sent, bytes_total). -/
structure Envelope where
  msg : List Nat
  bytes_sent : Int
  bytes_total : Int
deriving DecidableEq

/-- The remaining-length do-while loop of read_packet (net.c:184-191),
transcribed exactly as written in the source: msg_length is assigned
(thisbyte & 0x7F) * multiplier each iteration (the source overwrites, it
does not accumulate), and the loop continues while msg_index < inbuf_bytes
and the LOW SEVEN bits of the byte just read are nonzero (the source tests
thisbyte & 0x7F, not the 0x80 continuation bit), with no four-byte cap.
The fuel argument is only a structural-recursion bound; the guard conjunct
msg_index + 1 < n makes the fuel-0 case unreachable whenever the function
is called with fuel ≥ n. -/
def varintGo (inbuf : List Nat) (n : Nat) : Nat → Int → Nat → Int
  | msg_index, multiplier, 0 =>
      (((inbuf.getD msg_index 0) &&& 0x7F : Nat) : Int) * multiplier
  | msg_index, multiplier, fuel + 1 =>
      let thisbyte := inbuf.getD msg_index 0
      let msg_length : Int := ((thisbyte &&& 0x7F : Nat) : Int) * multiplier
      if msg_index + 1 < n ∧ thisbyte &&& 0x7F ≠ 0 then
        varintGo inbuf n (msg_index + 1) (multiplier * 128) fuel
      else
        msg_length

/-- Outcome of one read_packet call: its C return value, the decoded
completeness flag and msg_length, plus two observations needed by the
claims: whether an external protocol handler was invoked, and the client
state left behind. -/
structure PacketResult where
  ret : Int
  msg_complete : Bool
  msg_length : Int
  handlerInvoked : Bool
  state' : ClientState
deriving DecidableEq

/-- read_packet (net.c:172-233).  Framing: a frame is reported complete
exactly when inbuf_bytes - 2 equals the decoded msg_length (both the
single-byte branch at line 177 and the varint branch at line 193 compare
against inbuf_bytes - 2).  Dispatch: while S_CONNECTING any type other
than T_CONNECT logs and returns 0 (net.c:209-213, no disconnect); the
T_CONNECT case calls handle_connect, which lives in mqtt.c outside src/
and is therefore passed in as the oracle hc mapping msg_length to its
return value and the client state it leaves behind; the T_PINGREQ handler
call is commented out in the source and the default case only logs. -/
def read_packet (st : ClientState) (inbuf : List Nat)
    (hc : Int → Int × ClientState) : PacketResult :=
  let n := inbuf.length
  let b1 := inbuf.getD 1 0
  let fr : Bool × Int :=
    if b1 < 128 ∧ (n : Int) - 2 = (b1 : Int) then
      (true, (b1 : Int))
    else if 128 ≤ b1 then
      let ml := varintGo inbuf n 1 1 n
      (decide ((n : Int) - 2 = ml), ml)
    else
      (false, (b1 : Int))
  if fr.1 then
    let msg_type := (inbuf.getD 0 0) &&& 0xF0
    if st = ClientState.S_CONNECTING ∧ msg_type ≠ T_CONNECT then
      { ret := 0, msg_complete := true, msg_length := fr.2,
        handlerInvoked := false, state' := st }
    else if msg_type = T_CONNECT then
      let r := hc fr.2
      { ret := r.1, msg_complete := true, msg_length := fr.2,
        handlerInvoked := true, state' := r.2 }
    else
      { ret := 0, msg_complete := true, msg_length := fr.2,
        handlerInvoked := false, state' := st }
  else
    { ret := 0, msg_complete := false, msg_length := fr.2,
      handlerInvoked := false, state' := st }

/-- Result of one read(2) call on the socket: ok data is a return of
data.length bytes (zero bytes for ok []), fail errno is a -1 return with
the given errno. -/
inductive ReadResult
  | ok (data : List Nat)
  | fail (errno : Int)

/-- What the EV_READ branch did with the connection. -/
inductive ReadAction
  | torndown
  | deferred
  | continued
deriving DecidableEq

/-- Observation of one EV_READ branch execution: the action taken, the
updated client, whether read_packet was invoked, and the buffer contents
at the moment a complete frame was recognized (none otherwise). -/
structure ReadStep where
  action : ReadAction
  client : Client
  decoderInvoked : Bool
  completedFrame : Option (List Nat)
deriving DecidableEq

/-- The EV_READ branch of peer_cb (net.c:94-132).  A zero-byte read takes
the disconnect branch and tears the client down (the nested
bytes_read == -1 && errno == EAGAIN check inside that branch is
unreachable, since bytes_read is 0 there, and is dropped).  A -1 return
logs and returns for EVERY errno (net.c:119-122).  Otherwise the bytes are
appended and read_packet is invoked only when inbuf_bytes > 2 (strictly);
afterwards the source tests if (ret) and resets the buffer — when
read_packet was not invoked that reads the uninitialized C variable ret,
modelled by the explicit junk argument. -/
def onRead (c : Client) (r : ReadResult) (hc : Int → Int × ClientState)
    (junk : Int) : ReadStep :=
  match r with
  | .ok [] =>
      { action := .torndown, client := c,
        decoderInvoked := false, completedFrame := none }
  | .fail _ =>
      { action := .deferred, client := c,
        decoderInvoked := false, completedFrame := none }
  | .ok data =>
      let inbuf' := c.inbuf ++ data
      if 2 < inbuf'.length then
        let pr := read_packet c.state inbuf' hc
        let c' : Client :=
          { c with state := pr.state',
                   inbuf := if pr.ret ≠ 0 then [] else inbuf' }
        { action := .continued, client := c', decoderInvoked := true,
          completedFrame := if pr.msg_complete then some inbuf' else none }
      else
        let c' : Client := { c with inbuf := if junk ≠ 0 then [] else inbuf' }
        { action := .continued, client := c',
          decoderInvoked := false, completedFrame := none }

/-- Folds a sequence of read events through the EV_READ branch, collecting
the frames recognized as complete, and stopping once the client is torn
down. -/
def runReads (hc : Int → Int × ClientState) (junk : Int) :
    Client → List ReadResult → Client × List (List Nat)
  | c, [] => (c, [])
  | c, r :: rs =>
      let s := onRead c r hc junk
      if s.action = ReadAction.torndown then
        (s.client, s.completedFrame.toList)
      else
        let t := runReads hc junk s.client rs
        (t.1, s.completedFrame.toList ++ t.2)

/-- Result of one write(2) call: wrote k is a return of k bytes, fail
errno is a -1 return with the given errno. -/
inductive WriteResult
  | wrote (k : Nat)
  | fail (errno : Int)

/-- The C return value of the write call. -/
def retOf : WriteResult → Int
  | .wrote k => (k : Int)
  | .fail _ => -1

/-- Observation of one EV_WRITE branch execution: the queue afterwards and,
when the write call reported progress, the (payload, offset, count) of the
attempted envelope. -/
structure DrainStep where
  queue : List Envelope
  sent : Option (List Nat × Int × Int)
deriving DecidableEq

/-- The EV_WRITE branch of peer_cb (net.c:133-168).  LIST_FOREACH with the
unconditional break at line 167 means only the head envelope is ever
attempted in one invocation.  The would-block test at line 148 compares
the write RETURN VALUE ret against the errno constants, exactly as the
source does (so for ret = -1 it never matches and control falls through to
bytes_sent += ret); an envelope is removed exactly when the updated
bytes_sent equals bytes_total (net.c:159-165). -/
def onWritable (q : List Envelope) (w : WriteResult) : DrainStep :=
  match q with
  | [] => { queue := [], sent := none }
  | e :: rest =>
      let ret := retOf w
      if ret < 0 ∧ (ret = EAGAIN ∨ ret = EWOULDBLOCK ∨ ret = EINTR) then
        { queue := e :: rest, sent := none }
      else
        let sent := match w with
          | .wrote k => some (e.msg, e.bytes_sent, (k : Int))
          | .fail _ => none
        let e' : Envelope := { e with bytes_sent := e.bytes_sent + ret }
        if e'.bytes_sent = e'.bytes_total then
          { queue := rest, sent := sent }
        else
          { queue := e' :: rest, sent := sent }

/-- Folds a sequence of write-readiness invocations through the EV_WRITE
branch, collecting the payloads of the envelopes attempted, in order. -/
def drainRun : List Envelope → List WriteResult → List Envelope × List (List Nat)
  | q, [] => (q, [])
  | q, w :: ws =>
      let s := onWritable q w
      let t := drainRun s.queue ws
      (t.1, (s.sent.map fun p => p.1).toList ++ t.2)

/-- The payloads of the queued envelopes, in queue order. -/
def msgs (q : List Envelope) : List (List Nat) := q.map Envelope.msg

/-- The struct Client list lookup in peer_cb (net.c:84-92): LIST_FOREACH
from the list head with the guard client->fd == client->fd, which is
vacuously true, so the loop breaks at the head; the fd of the watcher the
event fired on is never consulted (hence the unused second argument). -/
def lookupClient (clients : List Client) (_event_fd : Int) : Option Client :=
  clients.find? fun c => c.fd == c.fd

/-- The branch structure of peer_cb (net.c:94,133): if revents has EV_READ
set the read path runs; else if it has EV_WRITE set the drain path runs. -/
inductive CbPath
  | readPath
  | writePath
  | neither
deriving DecidableEq

/-- Which branch of peer_cb executes for a given revents mask. -/
def peer_cb_path (revents : Nat) : CbPath :=
  if revents &&& EV_READ ≠ 0 then CbPath.readPath
  else if revents &&& EV_WRITE ≠ 0 then CbPath.writePath
  else CbPath.neither

/-- Modelled from the spec: the base-128 varint encoder for the
remaining-length field (§6: the low seven bits of each byte are data, 0x80
is the continuation bit); the outbound encoder is not part of src/.  The
fuel argument is a structural bound, never reached since L / 128 < L. -/
def encodeRemLenGo : Nat → Nat → List Nat
  | L, 0 => [L % 128]
  | L, fuel + 1 =>
      let d := L % 128
      if L / 128 = 0 then [d] else (d ||| 0x80) :: encodeRemLenGo (L / 128) fuel

/-- Base-128 varint encoding of a remaining-length value. -/
def encodeRemLen (L : Nat) : List Nat := encodeRemLenGo L L

/-- A concrete stand-in for the external handle_connect oracle; every
theorem applied to it is independent of its value because none reaches the
T_CONNECT dispatch case. -/
def hc0 : Int → Int × ClientState := fun _ => (0, ClientState.S_CONNECTED)

/-- A client that has completed the handshake (spec state Established). -/
def estClient : Client := { fd := 4, state := .S_CONNECTED, inbuf := [] }

/-- A freshly accepted client (net.c:67: state S_CONNECTING, empty buffer). -/
def freshClient : Client := { fd := 5, state := .S_CONNECTING, inbuf := [] }

/-- The buffered bytes of claim C1: frame type 0x20, varint 0x80 0x01
(which encodes 128), followed by 128 payload bytes — 131 bytes in all. -/
def c1buf : List Nat := [0x20, 0x80, 0x01] ++ List.replicate 128 0x00

/-- The buffered bytes of claim C2: frame type 0x20, the two-byte varint
encoding of 200, followed by 200 payload bytes — 203 bytes in all. -/
def c2buf : List Nat := 0x20 :: (encodeRemLen 200 ++ List.replicate 200 0x00)

/-- An envelope with a 3-byte payload none of which has been sent. -/
def c6env : Envelope := { msg := [9, 9, 9], bytes_sent := 0, bytes_total := 3 }

/-- First enqueued envelope of the C7 scenario (payload [1]). -/
def e1C7 : Envelope := { msg := [1], bytes_sent := 0, bytes_total := 1 }

/-- Second enqueued envelope of the C7 scenario (payload [2, 2]). -/
def e2C7 : Envelope := { msg := [2, 2], bytes_sent := 0, bytes_total := 2 }

/-- Third enqueued envelope of the C7 scenario (payload [3, 3, 3]). -/
def e3C7 : Envelope := { msg := [3, 3, 3], bytes_sent := 0, bytes_total := 3 }

/-- Newest client in the lookup scenario (LIST_INSERT_HEAD puts the most
recently accepted client at the head of the list). -/
def clientA : Client := { fd := 7, state := .S_CONNECTED, inbuf := [] }

/-- Older client in the lookup scenario, the one the event is for. -/
def clientB : Client := { fd := 5, state := .S_CONNECTED, inbuf := [] }

/-- Valid transmission logs of the EV_WRITE drain, relative to the payload
list of the queue it starts from: each attempted payload is the head of
the current queue, the head may stay (partial progress) or be removed
(completed), and a head may also disappear without a logged attempt (the
write call reported no progress).  Every payload attempted therefore
respects queue order. -/
inductive TransOK : List (List Nat) → List (List Nat) → Prop
  | nil (ms : List (List Nat)) : TransOK ms []
  | stay (m : List Nat) (ms ts : List (List Nat)) :
      TransOK (m :: ms) ts → TransOK (m :: ms) (m :: ts)
  | send_drop (m : List Nat) (ms ts : List (List Nat)) :
      TransOK ms ts → TransOK (m :: ms) (m :: ts)
  | silent_drop (m : List Nat) (ms ts : List (List Nat)) :
      TransOK ms ts → TransOK (m :: ms) ts

/-- C1: evaluation of read_packet on the frame 0x20 0x80 0x01 followed by
128 payload bytes (131 bytes buffered).  The claim says the total frame
length is 1 + 2 + 128 = 131, so with exactly 131 bytes buffered the frame
is complete with decoded remaining length 128.  The code instead decodes
remaining length 0 — the loop stops after the first length byte because
0x80 & 0x7F = 0, never adds the second byte, and in general overwrites
rather than accumulates — compares inbuf_bytes - 2 = 129 with 0, and
reports the frame incomplete. -/
theorem C1_varint_frame_length_bug :
    (read_packet .S_CONNECTED c1buf hc0).msg_complete = false ∧
    (read_packet .S_CONNECTED c1buf hc0).msg_length = 0 := by decide

/-- C2: encode-then-decode fails already at L = 200 (encoding 0xC8 0x01).
The claim says decoding yields 200 and that oversize encodings are
rejected as a FramingError.  The code assigns (byte & 0x7F) * multiplier
instead of accumulating, continues while the LOW seven bits are nonzero
(so after 0xC8 it also consumes 0x01 and then a payload byte), decodes 0,
and reports the 203-byte frame incomplete; read_packet has no framing
error outcome at all (PacketResult has no error case because net.c never
rejects an encoding, however long). -/
theorem C2_encode_decode_bug :
    encodeRemLen 200 = [0xC8, 0x01] ∧
    (read_packet .S_CONNECTED c2buf hc0).msg_length = 0 ∧
    (read_packet .S_CONNECTED c2buf hc0).msg_complete = false := by decide

/-- C3: split-invariance fails.  The Established client receives the byte
stream 0x20 0x01 0xAA 0x20 0x00 (a complete 3-byte frame followed by a
complete 2-byte frame).  Delivered in ONE read, the decoder reports
incomplete (completeness requires inbuf_bytes - 2 to equal msg_length
exactly, so residual bytes after a frame prevent recognizing it) and no
frame is ever extracted; delivered SPLIT after the third byte, the first
frame is extracted.  The two runs extract different frame sequences. -/
theorem C3_split_invariance_bug :
    (runReads hc0 0 estClient
        [ReadResult.ok [0x20, 0x01, 0xAA, 0x20, 0x00]]).2 = [] ∧
    (runReads hc0 0 estClient
        [ReadResult.ok [0x20, 0x01, 0xAA], ReadResult.ok [0x20, 0x00]]).2
      = [[0x20, 0x01, 0xAA]] := by decide

/-- C4: a header-only frame is never recognized.  The claim says the
establishment frame 0x10 0x00 is complete as soon as exactly 2 bytes are
buffered and that the decoder proceeds with at least 2 buffered bytes.
peer_cb invokes read_packet only when inbuf_bytes > 2 (net.c:127, and
read_packet asserts the same at line 173), so after a read delivering
exactly 0x10 0x00 the decoder is not invoked and no frame is recognized. -/
theorem C4_header_only_frame_bug :
    (onRead freshClient (.ok [0x10, 0x00]) hc0 0).decoderInvoked = false ∧
    (onRead freshClient (.ok [0x10, 0x00]) hc0 0).completedFrame = none := by decide

/-- C5: a complete non-establishment frame (0xC0 0x01 0xAA, a ping request
first) received while S_CONNECTING is indeed not dispatched to any
handler, but the connection is NOT moved to Closing: read_packet logs and
returns 0 leaving the state S_CONNECTING and the connection alive
(net.c:209-213, where the XXX comment says disconnect client). -/
theorem C5_no_teardown_bug :
    (read_packet .S_CONNECTING [0xC0, 0x01, 0xAA] hc0).msg_complete = true ∧
    (read_packet .S_CONNECTING [0xC0, 0x01, 0xAA] hc0).handlerInvoked = false ∧
    (read_packet .S_CONNECTING [0xC0, 0x01, 0xAA] hc0).state'
      = ClientState.S_CONNECTING := by decide

/-- C6: bytes_sent is not monotone and escapes its bounds.  When write
returns -1 with errno EAGAIN (a would-block condition, zero bytes actually
written), the test at net.c:148 compares the return value -1 against the
errno constants, never matches, and control falls through to
bytes_sent += ret: bytes_sent drops from 0 to -1, violating both
0 ≤ bytes_sent and monotonicity. -/
theorem C6_bytes_sent_decrease_bug :
    (onWritable [c6env] (.fail EAGAIN)).queue
      = [{ msg := [9, 9, 9], bytes_sent := -1, bytes_total := 3 }] := by decide

/-- C7 counterexample: the claim says the write-readiness handler drains
the queue, stopping ONLY on a would-block condition or an empty queue.
Here the queue holds two envelopes, the write succeeds in full (no
would-block anywhere), E1 is sent and removed — and the invocation ends
with E2 still queued and unattempted: the LIST_FOREACH body breaks
unconditionally after one envelope (net.c:167). -/
theorem C7_single_attempt_counterexample :
    (onWritable [e1C7, e2C7] (.wrote 1)).sent = some ([1], 0, 1) ∧
    (onWritable [e1C7, e2C7] (.wrote 1)).queue = [e2C7] := by decide

/-- Unfolding the EV_WRITE branch on a nonempty queue when the write call
returned k ≥ 0 bytes: the would-block test is false, the head is updated
and removed exactly when the new bytes_sent equals bytes_total. -/
theorem onWritable_wrote (e : Envelope) (rest : List Envelope) (k : Nat) :
    onWritable (e :: rest) (.wrote k)
      = if e.bytes_sent + (k : Int) = e.bytes_total then
          { queue := rest, sent := some (e.msg, e.bytes_sent, (k : Int)) }
        else
          { queue := { e with bytes_sent := e.bytes_sent + (k : Int) } :: rest,
            sent := some (e.msg, e.bytes_sent, (k : Int)) } := by
  have hblk : ¬ ((k : Int) < 0 ∧
      ((k : Int) = EAGAIN ∨ (k : Int) = EWOULDBLOCK ∨ (k : Int) = EINTR)) := by
    rintro ⟨h, -⟩; omega
  simp only [onWritable, retOf, if_neg hblk]

/-- Unfolding the EV_WRITE branch on a nonempty queue when the write call
returned -1: the errno-constant comparison at net.c:148 never matches -1,
so control falls through, bytes_sent is decremented, and nothing is logged
as sent. -/
theorem onWritable_fail (e : Envelope) (rest : List Envelope) (errno : Int) :
    onWritable (e :: rest) (.fail errno)
      = if e.bytes_sent + (-1) = e.bytes_total then
          { queue := rest, sent := none }
        else
          { queue := { e with bytes_sent := e.bytes_sent + (-1) } :: rest,
            sent := none } := by
  have hblk : ¬ ((-1 : Int) < 0 ∧
      ((-1 : Int) = EAGAIN ∨ (-1 : Int) = EWOULDBLOCK ∨ (-1 : Int) = EINTR)) := by
    rintro ⟨-, h⟩
    simp [EAGAIN, EWOULDBLOCK, EINTR] at h
  simp only [onWritable, retOf, if_neg hblk]

/-- One EV_WRITE invocation preserves validity of transmission logs: the
payload it attempts (if any) is the head of the queue it starts from. -/
theorem onWritable_trans (q : List Envelope) (w : WriteResult)
    (ts : List (List Nat))
    (h : TransOK (msgs (onWritable q w).queue) ts) :
    TransOK (msgs q) (((onWritable q w).sent.map fun p => p.1).toList ++ ts) := by
  cases q with
  | nil => simpa [onWritable, msgs] using h
  | cons e rest =>
      cases w with
      | wrote k =>
          rw [onWritable_wrote] at h ⊢
          by_cases hd : e.bytes_sent + (k : Int) = e.bytes_total
          · rw [if_pos hd] at h ⊢
            simpa [msgs] using
              TransOK.send_drop e.msg (msgs rest) ts (by simpa [msgs] using h)
          · rw [if_neg hd] at h ⊢
            simpa [msgs] using
              TransOK.stay e.msg (msgs rest) ts (by simpa [msgs] using h)
      | fail errno =>
          rw [onWritable_fail] at h ⊢
          by_cases hd : e.bytes_sent + (-1) = e.bytes_total
          · rw [if_pos hd] at h ⊢
            simpa [msgs] using
              TransOK.silent_drop e.msg (msgs rest) ts (by simpa [msgs] using h)
          · rw [if_neg hd] at h ⊢
            simpa [msgs] using h

/-- Any sequence of EV_WRITE invocations produces a valid transmission log
relative to the starting queue. -/
theorem drainRun_trans (ws : List WriteResult) :
    ∀ q : List Envelope, TransOK (msgs q) (drainRun q ws).2 := by
  induction ws with
  | nil => intro q; exact TransOK.nil _
  | cons w ws ih =>
      intro q
      have h := onWritable_trans q w (drainRun (onWritable q w).queue ws).2
        (ih (onWritable q w).queue)
      simpa [drainRun] using h

/-- Replicating every payload zero times flattens to the empty log. -/
theorem zipRep_zero (ms : List (List Nat)) :
    (List.zipWith List.replicate (ms.map fun _ => 0) ms).flatten = [] := by
  induction ms with
  | nil => simp
  | cons m ms ih =>
      simp only [List.map_cons, List.zipWith_cons_cons, List.flatten_cons,
        List.replicate_zero, List.nil_append]
      exact ih

/-- A valid transmission log groups into consecutive blocks of repeats of
the queue payloads, in queue order. -/
theorem transOK_grouped {ms ts : List (List Nat)} (h : TransOK ms ts) :
    ∃ ns : List Nat, ns.length = ms.length ∧
      ts = (List.zipWith List.replicate ns ms).flatten := by
  induction h with
  | nil ms => exact ⟨ms.map fun _ => 0, by simp, (zipRep_zero ms).symm⟩
  | stay m ms ts h ih =>
      obtain ⟨ns, hlen, hts⟩ := ih
      cases ns with
      | nil => simp at hlen
      | cons n0 ns' =>
          refine ⟨(n0 + 1) :: ns', by simpa using hlen, ?_⟩
          subst hts
          simp [List.zipWith_cons_cons, List.flatten_cons, List.replicate_succ]
  | send_drop m ms ts h ih =>
      obtain ⟨ns, hlen, hts⟩ := ih
      refine ⟨1 :: ns, by simpa using hlen, ?_⟩
      subst hts
      simp [List.zipWith_cons_cons, List.flatten_cons]
  | silent_drop m ms ts h ih =>
      obtain ⟨ns, hlen, hts⟩ := ih
      refine ⟨0 :: ns, by simpa using hlen, ?_⟩
      subst hts
      simp [List.zipWith_cons_cons, List.flatten_cons]

/-- C7 (amended): per write-readiness invocation the handler makes at most
one send attempt, always on the head (oldest) envelope, and stops there
regardless of would-block or remaining queue contents; across any sequence
of invocations with arbitrary write results (would-block injected at any
point), the attempted payloads of E1, E2, E3 appear grouped strictly in
enqueue order: E1 repeats, then E2 repeats, then E3 repeats. -/
theorem C7_amended_order :
    (∀ (e : Envelope) (rest : List Envelope) (w : WriteResult),
        (onWritable (e :: rest) w).sent = none ∨
        ∃ r : Int, (onWritable (e :: rest) w).sent
          = some (e.msg, e.bytes_sent, r)) ∧
    (∀ ws : List WriteResult, ∃ ns : List Nat, ns.length = 3 ∧
        (drainRun [e1C7, e2C7, e3C7] ws).2
          = (List.zipWith List.replicate ns [[1], [2, 2], [3, 3, 3]]).flatten) := by
  constructor
  · intro e rest w
    cases w with
    | wrote k =>
        rw [onWritable_wrote]
        split
        · exact Or.inr ⟨(k : Int), rfl⟩
        · exact Or.inr ⟨(k : Int), rfl⟩
    | fail errno =>
        rw [onWritable_fail]
        split
        · exact Or.inl rfl
        · exact Or.inl rfl
  · intro ws
    have h := drainRun_trans ws [e1C7, e2C7, e3C7]
    have hm : msgs [e1C7, e2C7, e3C7] = [[1], [2, 2], [3, 3, 3]] := rfl
    rw [hm] at h
    obtain ⟨ns, hlen, hts⟩ := transOK_grouped h
    exact ⟨ns, by simpa using hlen, hts⟩

/-- C8: connection lookup does not key on the event descriptor.  With two
live clients (fd 7 at the list head, fd 5 behind it) and a readiness event
for fd 5, the loop guard client->fd == client->fd is vacuously true, so
the head client (fd 7) is selected and its buffer would receive the
bytes — not the fd-5 client the event belongs to. -/
theorem C8_lookup_bug :
    lookupClient [clientA, clientB] 5 = some clientA ∧ clientA.fd ≠ 5 := by decide

/-- C9: of the three claimed outcomes for a failed or empty read, two hold
and one fails: a zero-byte read tears the connection down and a would-block
-1 (errno EAGAIN) is a no-op, but a -1 with any OTHER errno (here EIO) is
ALSO a no-op — net.c:119-122 logs and returns for every read error, so no
teardown with an I/O error exists (the errno check that should distinguish
them sits unreachable inside the zero-byte branch at line 100). -/
theorem C9_read_error_noop_bug :
    (onRead estClient (.ok []) hc0 0).action = ReadAction.torndown ∧
    (onRead estClient (.fail EAGAIN) hc0 0).action = ReadAction.deferred ∧
    (onRead estClient (.fail EIO) hc0 0).action = ReadAction.deferred := by decide

/-- C10: when read-readiness is signalled the read branch runs regardless
of write-readiness (the if / else if at net.c:94,133 gives EV_READ
priority), and the outbound queue is drained exactly in the invocations
where EV_WRITE is signalled without EV_READ. -/
theorem C10_read_priority (revents : Nat) :
    (revents &&& EV_READ ≠ 0 → peer_cb_path revents = CbPath.readPath) ∧
    (peer_cb_path revents = CbPath.writePath ↔
      (revents &&& EV_READ = 0 ∧ revents &&& EV_WRITE ≠ 0)) := by
  unfold peer_cb_path
  by_cases h1 : revents &&& EV_READ = 0
  · by_cases h2 : revents &&& EV_WRITE = 0 <;> simp [h1, h2]
  · simp [h1]

/-- C10 witness: revents = 3 signals both EV_READ and EV_WRITE, and the
read path is the one taken. -/
theorem C10_read_priority_witness :
    peer_cb_path 3 = CbPath.readPath := (C10_read_priority 3).1 (by decide)

end PubSub
